import Mathlib

/-!
Verification development for the Google-search pagination automaton of
`src/project/department/utils/Browserless/googlesearch.js`.

The DOM and the browser session are modelled shallowly: every
`document.querySelector`/`querySelectorAll` answer that the script inspects
becomes a field of an explicit structure (`Candidate`, `Env`, `Location`),
`sessionStorage` becomes a `StoreContent` value, and the side effects of one
controller invocation (state writes, store clearing, navigations) become an
explicit list of `Action`s.  All string manipulation mirrors the JavaScript
string/URL operations used by the source.
-/

namespace AutoGen

/-- Character-list prefix test. -/
def charsStartWith : List Char → List Char → Bool
  | [], _ => true
  | _ :: _, [] => false
  | a :: as, b :: bs => a == b && charsStartWith as bs

/-- Character-list contiguous-substring test. -/
def charsContain (pat : List Char) : List Char → Bool
  | [] => pat.isEmpty
  | b :: bs => charsStartWith pat (b :: bs) || charsContain pat bs

/-- JS `a.includes(b)`: `b` occurs as a contiguous substring of `a`. -/
def strContains (s pat : String) : Bool := charsContain pat.toList s.toList

/-- JS truthiness of a string-or-undefined value (`none` models `undefined`;
the empty string is falsy). -/
def jsTruthy : Option String → Bool
  | none => false
  | some s => s != ""

/-- JS string coercion of a string-or-undefined value (string concatenation
turns `undefined` into the text `undefined`). -/
def jsString : Option String → String
  | none => "undefined"
  | some s => s

/-- Strip leading and trailing whitespace from a character list. -/
def trimChars (l : List Char) : List Char :=
  ((l.dropWhile Char.isWhitespace).reverse.dropWhile Char.isWhitespace).reverse

/-- JS `s.trim()`. -/
def jsTrim (s : String) : String := String.mk (trimChars s.toList)

/-- JS `s.toLowerCase()` (ASCII range). -/
def lowerStr (s : String) : String := String.mk (s.toList.map Char.toLower)

/-- JS `s.substring(0, n)`. -/
def takeStr (s : String) (n : Nat) : String := String.mk (s.toList.take n)

/-- JS `s.split("\n")[0]`. -/
def firstLine (s : String) : String :=
  String.mk (s.toList.takeWhile (fun c => c != '\n'))

/-- Split a character list at every character satisfying `p` (the separators
are dropped; adjacent separators produce empty pieces). -/
def splitPred (p : Char → Bool) : List Char → List (List Char)
  | [] => [[]]
  | c :: rest =>
    let r := splitPred p rest
    if p c then [] :: r
    else
      match r with
      | [] => [[c]]
      | h :: t => (c :: h) :: t

/-- JS `s.replace(/\s+/g, " ").trim()`: collapse every whitespace run to a
single space and strip leading/trailing whitespace. -/
def collapseWsTrim (s : String) : String :=
  String.mk (List.intercalate [' ']
    ((splitPred Char.isWhitespace s.toList).filter (fun t => !t.isEmpty)))

/-- JS `s.replace(/\.\.\.$/, "")`: remove one trailing ellipsis marker. -/
def dropTrailingEllipsis (s : String) : String :=
  if charsStartWith ['.', '.', '.'] (s.toList.reverse.take 3).reverse then
    String.mk (s.toList.take (s.toList.length - 3))
  else s

/-- Numeric value of a hexadecimal digit. -/
def hexVal (c : Char) : Option Nat :=
  if '0' ≤ c ∧ c ≤ '9' then some (c.toNat - '0'.toNat)
  else if 'a' ≤ c ∧ c ≤ 'f' then some (c.toNat - 'a'.toNat + 10)
  else if 'A' ≤ c ∧ c ≤ 'F' then some (c.toNat - 'A'.toNat + 10)
  else none

/-- Percent-decoding as performed by `URLSearchParams` on parameter names and
values: `+` becomes a space, `%hh` becomes the character with that code,
invalid escapes are kept literally. -/
def percentDecodeAux : List Char → List Char
  | [] => []
  | '+' :: rest => ' ' :: percentDecodeAux rest
  | '%' :: a :: b :: rest =>
      match hexVal a, hexVal b with
      | some ha, some hb => Char.ofNat (16 * ha + hb) :: percentDecodeAux rest
      | _, _ => '%' :: percentDecodeAux (a :: b :: rest)
  | c :: rest => c :: percentDecodeAux rest

/-- The query portion of an absolute URL: the text after the first `?` of the
pre-fragment part, i.e. `new URL(u).search` without its leading `?`. -/
def searchOf (url : String) : List Char :=
  match (url.toList.takeWhile (fun c => c != '#')).dropWhile (fun c => c != '?') with
  | [] => []
  | _ :: rest => rest

/-- `new URLSearchParams(new URL(url).search).get(key)`: the decoded value of
the first occurrence of `key`, or `none` when the key is absent.  Each
`name=value` pair splits at its first `=` (a pair without `=` has value `""`),
and names and values are percent-decoded. -/
def urlSearchParamsGet (url key : String) : Option String :=
  List.head? (((splitPred (fun c => c == '&') (searchOf url)).filter
      (fun p => !p.isEmpty)).filterMap
    (fun p =>
      if percentDecodeAux (p.takeWhile (fun c => c != '=')) == key.toList then
        some (String.mk (percentDecodeAux ((p.dropWhile (fun c => c != '=')).drop 1)))
      else none))

/-- One extracted search-result record, as pushed by
`extractCurrentPageGoogleResults` (`{ title, url, displayUrl, summary }`). -/
structure ResultRecord where
  title : String
  url : String
  displayUrl : String
  summary : String
deriving DecidableEq

/-- An anchor-like element: `href` is `none` when the element has no `href`
property (JS `undefined`), and its visible text. -/
structure Anchor where
  href : Option String
  text : String
deriving DecidableEq

/-- The element matched by
`querySelector(h3 a, a h3, div[role=heading] a, a div[role=heading])`.
Depending on which alternative matched it may or may not be an anchor
(`href = none` models a non-anchor match), and `innerHeading` is the
`textContent` of its inner `h3, div[role=heading]` when one exists. -/
structure TitleLinkEl where
  href : Option String
  text : String
  innerHeading : Option String
deriving DecidableEq

/-- The element matched by `querySelector(h3)` on the candidate: its text, its
`closest(a)` ancestor anchor, and the first following sibling that is an
anchor (the `nextElementSibling` walk of the source). -/
structure H3El where
  text : String
  closestA : Option Anchor
  siblingA : Option Anchor
deriving DecidableEq

/-- One element matched by a summary selector: its text, whether it sits under
an `h3` / `cite` ancestor, and the `href` attribute values of its
self-or-ancestor anchors (used by the `closest(a[href=...])` test). -/
structure SummaryEl where
  text : String
  underH3 : Bool
  underCite : Bool
  ancestorHrefs : List String
deriving DecidableEq

/-- One candidate result container, abstracted by the answers the DOM gives to
every query `extractCurrentPageGoogleResults` performs on it.  `hostError`
models the DOM raising an exception at some point while this candidate is
processed (caught by the per-candidate `try`/`catch` of the source). -/
structure Candidate where
  titleLink : Option TitleLinkEl
  h3 : Option H3El
  generalLink : Option Anchor
  isVideo : Bool
  videoTitle : Option String
  videoLink : Option Anchor
  cite : Option String
  summaryEls : List SummaryEl
  strippedText : String
  hostError : Bool
deriving DecidableEq

/-- Title/url resolution strategy chain of `extractCurrentPageGoogleResults`
(source lines 20-66), before URL canonicalization.  Returns the JS variables
`(title, url)` at line 67: `title` is always a string, `url` is a
string-or-undefined.  Both start as `N/A`. -/
def resolveTitleUrlRaw (c : Candidate) : String × Option String :=
  let title := "N/A"
  let url : Option String := some "N/A"
  let step1 : Bool × String × Option String :=
    match c.titleLink with
    | none =>
      match c.h3 with
      | some h3 =>
        match h3.closestA with
        | some _ => (true, jsTrim h3.text, url)
        | none =>
          let title := jsTrim h3.text
          let url :=
            match h3.siblingA with
            | some a => if jsTruthy a.href then a.href else url
            | none => url
          (false, title, url)
      | none => (false, title, url)
    | some tl =>
      let title :=
        match tl.innerHeading with
        | some ht => jsTrim ht
        | none => firstLine (jsTrim tl.text)
      (true, title, tl.href)
  let tlFound := step1.1
  let title := step1.2.1
  let url := step1.2.2
  let step2 : String × Option String :=
    if !tlFound && title == "N/A" then
      match c.generalLink with
      | some g =>
        let url := g.href
        let pt := firstLine (jsTrim g.text)
        if pt != "" && pt.length > 5 && pt.length < 150 then (pt, url) else (title, url)
      | none => (title, url)
    else (title, url)
  let title := step2.1
  let url := step2.2
  if title == "N/A" && c.isVideo then
    let title := match c.videoTitle with | some t => jsTrim t | none => title
    let url := match c.videoLink with | some a => a.href | none => url
    (title, url)
  else (title, url)

/-- URL canonicalization (source lines 69-76): when the url contains the
literal text `/url?q=`, replace it by the value of its `q` query parameter
when that parameter exists. -/
def canonicalizeUrl (url : Option String) : Option String :=
  if jsTruthy url && strContains (jsString url) "/url?q=" then
    match urlSearchParamsGet (jsString url) "q" with
    | some v => some v
    | none => url
  else url

/-- Snippet resolution (source lines 81-106): join the deduplicated texts of
the summary elements that survive the ancestor filters and the length bound;
otherwise fall back to the stripped clone text truncated to 350 characters;
finally substitute the sentinel when empty or title-like. -/
def resolveSummary (c : Candidate) (title : String) (url : Option String) : String :=
  let parts := (c.summaryEls.filter (fun el =>
      !el.underH3 && !el.underCite && !(el.ancestorHrefs.contains (jsString url)) &&
        (jsTrim el.text).length > 15)).map (fun el => jsTrim el.text)
  let summary :=
    if parts.length > 0 then
      collapseWsTrim (String.mk (List.intercalate [' ']
        ((parts.foldl (fun acc x => if acc.contains x then acc else acc ++ [x]) []).map
          String.toList)))
    else
      let t := collapseWsTrim c.strippedText
      if t.length > 350 then takeStr t 350 ++ "..." else t
  if jsTrim (dropTrailingEllipsis summary) == "" ||
      (charsStartWith (takeStr (lowerStr title) 15).toList (lowerStr summary).toList &&
        title.length > 15) then
    "未找到有效摘要。"
  else summary

/-- Field resolution for one candidate (the body of the per-candidate `try`
block, lines 25-110): produces a record exactly when both the title and the
url resolved to non-trivial values and the url is not a `javascript:void`
pseudo-link. -/
def extractFields (c : Candidate) : Option ResultRecord :=
  if (resolveTitleUrlRaw c).1 != "" && (resolveTitleUrlRaw c).1 != "N/A" &&
      jsTruthy (canonicalizeUrl (resolveTitleUrlRaw c).2) &&
      canonicalizeUrl (resolveTitleUrlRaw c).2 != some "N/A" &&
      !(charsStartWith ("javascript:void".toList)
          (jsString (canonicalizeUrl (resolveTitleUrlRaw c).2)).toList) then
    some
      { title := (resolveTitleUrlRaw c).1
        url := jsString (canonicalizeUrl (resolveTitleUrlRaw c).2)
        displayUrl := match c.cite with | some t => jsTrim t | none => "N/A"
        summary := resolveSummary c (resolveTitleUrlRaw c).1
          (canonicalizeUrl (resolveTitleUrlRaw c).2) }
  else none

/-- Processing of one candidate under its own `try`/`catch`: a host (DOM)
exception yields `Except.error`, otherwise the resolved fields. -/
def processResultElement (c : Candidate) : Except Unit (Option ResultRecord) :=
  if c.hostError then .error () else .ok (extractFields c)

/-- The record one candidate contributes, if any: `none` both when processing
raised (the `catch` only logs) and when the acceptance test failed. -/
def recordOf (c : Candidate) : Option ResultRecord :=
  match processResultElement c with
  | .ok (some r) => some r
  | _ => none

/-- `extractCurrentPageGoogleResults` (source lines 11-116): fold over all
candidate containers, appending the record of each candidate that resolves,
dropping candidates that raise. -/
def extractCurrentPageGoogleResults (cs : List Candidate) : List ResultRecord :=
  cs.foldl (fun acc c =>
    match processResultElement c with
    | .ok (some r) => acc ++ [r]
    | _ => acc) []

/-- Workflow phase enumeration of `startFullGoogleSearchAutomation`
(`INITIATE_SEARCH, ON_GOOGLE_HOME, SCRAPING_RESULTS, FINISHED`). -/
inductive Phase
  | initiateSearch
  | onGoogleHome
  | scrapingResults
  | finished
deriving DecidableEq

/-- The persisted workflow state object (`state` of the source, stored under
the session key `googleFullSearchState`). -/
structure WorkflowState where
  keyword : String
  currentPageNum : Nat
  allResults : List ResultRecord
  currentPhase : Phase
  maxPages : Nat
deriving DecidableEq

/-- Contents of `sessionStorage` under the state key: absent, present but not
deserializable (`JSON.parse` throws), or a parsed state. -/
inductive StoreContent
  | absent
  | corrupt
  | stored (s : WorkflowState)
deriving DecidableEq

/-- The relevant parts of `window.location`. -/
structure Location where
  hostname : String
  pathname : String
  href : String
deriving DecidableEq

/-- The document environment one controller invocation observes: the location,
whether the home-page query input and submit button are found, the records the
extraction engine yields on a results page, and the `href` of the next-page
control when that control exists (`none` = `querySelector` returned null). -/
structure Env where
  loc : Location
  searchInputFound : Bool
  searchButtonFound : Bool
  pageData : List ResultRecord
  nextPageHref : Option String
deriving DecidableEq

/-- An observable side effect of one controller invocation:
a `sessionStorage.setItem` of the serialized state (`saveState`), a
`sessionStorage.removeItem` of the state key, a `window.location.href`
assignment, or a click on a navigating control. -/
inductive Action
  | write (s : WorkflowState)
  | clear
  | navLoc (url : String)
  | navClick
deriving DecidableEq

/-- `MAX_PAGES_TO_SCRAPE` (source line 124). -/
def MAX_PAGES_TO_SCRAPE : Nat := 10

/-- The freshly initialized state object (source lines 126-132). -/
def initialState (keyword : String) : WorkflowState :=
  { keyword := keyword
    currentPageNum := 1
    allResults := []
    currentPhase := .initiateSearch
    maxPages := MAX_PAGES_TO_SCRAPE }

/-- State resolution against a parsed stored state (source lines 138-152):
same keyword resumes, a new keyword resets, an omitted keyword resumes a
stored one. -/
def resolveStored (keyword : String) (parsed : WorkflowState) : WorkflowState :=
  if keyword != "" && parsed.keyword == keyword then parsed
  else if keyword != "" then initialState keyword
  else if keyword == "" && parsed.keyword != "" then parsed
  else initialState keyword

/-- The state-loading prologue (source lines 134-171).  Returns the resolved
in-memory state (or `none` when the invocation returns during loading) and the
store actions performed while loading. -/
def loadState (keyword : String) (store : StoreContent) :
    Option WorkflowState × List Action :=
  match store with
  | .stored parsed =>
    if (resolveStored keyword parsed).keyword == "" then (none, [.clear])
    else (some (resolveStored keyword parsed), [])
  | .absent => if keyword == "" then (none, []) else (some (initialState keyword), [])
  | .corrupt => if keyword == "" then (none, []) else (some (initialState keyword), [])

/-- Entry condition of the `INITIATE_SEARCH` navigation check (source line
191): already on the Google home page. -/
def isGoogleHomeStrict (l : Location) : Bool :=
  strContains l.hostname "google.com" && l.pathname == "/"

/-- Entry condition of the `ON_GOOGLE_HOME` dispatch (source line 204). -/
def isGoogleHomeLoose (l : Location) : Bool :=
  strContains l.hostname "google.com" && (l.pathname == "/" || l.pathname == "/webhp")

/-- Entry condition of the `SCRAPING_RESULTS` dispatch (source line 206). -/
def isResultsPage (l : Location) : Bool := strContains l.href "/search?q="

/-- JS `nextPageButton && nextPageButton.href` (source line 286). -/
def nextFound (e : Env) : Bool :=
  match e.nextPageHref with
  | some h => h != ""
  | none => false

/-- Merge loop of `processSearchResultsPage` (source lines 266-271): append
each new item whose `(url, title)` pair is not already present. -/
def mergeResults (acc new : List ResultRecord) : List ResultRecord :=
  new.foldl (fun acc n =>
    if acc.any (fun ex => ex.url == n.url && ex.title == n.title) then acc
    else acc ++ [n]) acc

/-- `processGoogleHomePage` (source lines 226-257): with both controls found,
checkpoint phase `SCRAPING_RESULTS` and click the submit button; otherwise log
and clear the store. -/
def processGoogleHomePage (s : WorkflowState) (e : Env) : List Action :=
  if e.searchInputFound && e.searchButtonFound then
    [.write { s with currentPhase := .scrapingResults }, .navClick]
  else [.clear]

/-- `processSearchResultsPage` (source lines 259-299): merge the extracted
page data, then either finish (page bound reached or no next-page control) or
checkpoint the incremented page number and click the next-page control. -/
def processSearchResultsPage (s : WorkflowState) (e : Env) : List Action :=
  if s.maxPages ≤ s.currentPageNum then
    [.write { s with allResults := mergeResults s.allResults e.pageData,
                     currentPhase := .finished }, .clear]
  else if nextFound e then
    [.write { s with allResults := mergeResults s.allResults e.pageData,
                     currentPageNum := s.currentPageNum + 1 }, .navClick]
  else
    [.write { s with allResults := mergeResults s.allResults e.pageData,
                     currentPhase := .finished }, .clear]

/-- Phase dispatch of the controller (source lines 190-224), including the
mismatch recovery of lines 211-224. -/
def dispatchPhase (s : WorkflowState) (e : Env) : List Action :=
  if s.currentPhase == .initiateSearch then
    if !(isGoogleHomeStrict e.loc) then
      [.write { s with currentPhase := .onGoogleHome }, .navLoc "https://www.google.com/"]
    else
      .write { s with currentPhase := .onGoogleHome } ::
        processGoogleHomePage { s with currentPhase := .onGoogleHome } e
  else if s.currentPhase == .onGoogleHome && isGoogleHomeLoose e.loc then
    processGoogleHomePage s e
  else if s.currentPhase == .scrapingResults && isResultsPage e.loc then
    processSearchResultsPage s e
  else if s.currentPhase == .finished then
    [.clear]
  else if s.keyword != "" then
    [.write { s with currentPhase := .initiateSearch, currentPageNum := 1, allResults := [] },
      .navLoc "https://www.google.com/"]
  else [.clear]

/-- One full controller invocation `startFullGoogleSearchAutomation(keyword)`
against a given store and document environment, as the list of its observable
actions in order. -/
def startFullGoogleSearchAutomation (keyword : String) (store : StoreContent)
    (e : Env) : List Action :=
  match loadState keyword store with
  | (none, acts) => acts
  | (some s, acts) => acts ++ dispatchPhase s e

/-- Effect of one action on the store. -/
def applyAction (st : StoreContent) : Action → StoreContent
  | .write s => .stored s
  | .clear => .absent
  | .navLoc _ => st
  | .navClick => st

/-- Effect of an action list on the store. -/
def applyActions (st : StoreContent) (l : List Action) : StoreContent :=
  l.foldl applyAction st

/-- Store evolution across one controller invocation. -/
def stepStore (st : StoreContent) (c : String × Env) : StoreContent :=
  applyActions st (startFullGoogleSearchAutomation c.1 st c.2)

/-- Store evolution across a sequence of controller invocations. -/
def runStore (st : StoreContent) : List (String × Env) → StoreContent
  | [] => st
  | c :: rest => runStore (stepStore st c) rest

/-- A navigation action: a location assignment or a click on a navigating
control. -/
def isNav : Action → Bool
  | .navLoc _ => true
  | .navClick => true
  | _ => false

/-- Number of navigation actions in a trace. -/
def navCount (l : List Action) : Nat := (l.filter isNav).length

/-- Every navigation action in the trace is preceded by a state write
(`seenWrite` records whether a write occurred earlier). -/
def navsAfterWrite (seenWrite : Bool) : List Action → Bool
  | [] => true
  | .write _ :: rest => navsAfterWrite true rest
  | .clear :: rest => navsAfterWrite seenWrite rest
  | .navLoc _ :: rest => seenWrite && navsAfterWrite seenWrite rest
  | .navClick :: rest => seenWrite && navsAfterWrite seenWrite rest

/-- No two records of the list share their `(title, url)` pair. -/
def PairUnique (l : List ResultRecord) : Prop :=
  l.Pairwise (fun a b => ¬(a.url = b.url ∧ a.title = b.title))

/-- Number of records of the list with the given `(title, url)` pair. -/
def pairCount (t u : String) (l : List ResultRecord) : Nat :=
  (l.filter (fun r => r.title == t && r.url == u)).length

/-! Concrete documents, states and environments used by counterexamples and
witnesses. -/

/-- A candidate whose only link is a redirect wrapper whose `q` parameter is
not the first query parameter. -/
def candQNotFirst : Candidate :=
  { titleLink := none, h3 := none
    generalLink := some
      ⟨some "https://www.google.com/url?sa=t&q=https://example.com/target",
        "A plausible anchor title"⟩
    isVideo := false, videoTitle := none, videoLink := none, cite := none
    summaryEls := []
    strippedText := "Some stripped descriptive text used as the snippet fallback"
    hostError := false }

/-- A candidate whose only link is a redirect wrapper with `q` first. -/
def candQFirst : Candidate :=
  { titleLink := none, h3 := none
    generalLink := some
      ⟨some "https://www.google.com/url?q=https://example.com/target&sa=t",
        "Interesting article to read"⟩
    isVideo := false, videoTitle := none, videoLink := none, cite := none
    summaryEls := []
    strippedText := "Background description text for the snippet fallback paragraph"
    hostError := false }

/-- The record `candQFirst` resolves to. -/
def candQFirstRecord : ResultRecord :=
  ⟨"Interesting article to read", "https://example.com/target", "N/A",
    "Background description text for the snippet fallback paragraph"⟩

/-- A candidate whose general-fallback anchor text has exactly 5 characters. -/
def candLenFive : Candidate :=
  { titleLink := none, h3 := none
    generalLink := some ⟨some "https://example.com/a", "abcde"⟩
    isVideo := false, videoTitle := none, videoLink := none, cite := none
    summaryEls := [], strippedText := "", hostError := false }

/-- A candidate whose general-fallback anchor text has 17 characters. -/
def candLenOk : Candidate :=
  { titleLink := none, h3 := none
    generalLink := some ⟨some "https://example.com/b", "A plausible title"⟩
    isVideo := false, videoTitle := none, videoLink := none, cite := none
    summaryEls := [], strippedText := "", hostError := false }

/-- A candidate on which the DOM raises while it is processed. -/
def candRaising : Candidate :=
  { titleLink := none, h3 := none
    generalLink := some ⟨some "https://example.com/c", "Another plausible title"⟩
    isVideo := false, videoTitle := none, videoLink := none, cite := none
    summaryEls := [], strippedText := "", hostError := true }

/-- Two distinct sample records. -/
def recA : ResultRecord := ⟨"title one", "https://a.example/", "a.example", "snippet one"⟩

/-- Second sample record. -/
def recB : ResultRecord := ⟨"title two", "https://b.example/", "b.example", "snippet two"⟩

/-- A Google home-page environment with both controls present. -/
def envHome : Env :=
  { loc := ⟨"www.google.com", "/", "https://www.google.com/"⟩
    searchInputFound := true, searchButtonFound := true
    pageData := [], nextPageHref := some "https://www.google.com/search?q=kw&start=10" }

/-- A Google home-page environment with the controls missing. -/
def envHomeNoControls : Env :=
  { loc := ⟨"www.google.com", "/", "https://www.google.com/"⟩
    searchInputFound := false, searchButtonFound := false
    pageData := [], nextPageHref := none }

/-- A results-page environment with a next-page control. -/
def envResultsNext : Env :=
  { loc := ⟨"www.google.com", "/search", "https://www.google.com/search?q=kw"⟩
    searchInputFound := false, searchButtonFound := false
    pageData := [], nextPageHref := some "https://www.google.com/search?q=kw&start=10" }

/-- A results-page environment without a next-page control. -/
def envResultsNoNext : Env :=
  { loc := ⟨"www.google.com", "/search", "https://www.google.com/search?q=kw"⟩
    searchInputFound := false, searchButtonFound := false
    pageData := [], nextPageHref := none }

/-- An unrelated page: matches no phase expectation. -/
def envElsewhere : Env :=
  { loc := ⟨"example.com", "/x", "https://example.com/x"⟩
    searchInputFound := false, searchButtonFound := false
    pageData := [], nextPageHref := none }

/-- A mid-scrape state on page 1. -/
def scrapingState1 : WorkflowState := ⟨"kw", 1, [], .scrapingResults, 10⟩

/-- A home-phase state. -/
def homeState : WorkflowState := ⟨"kw", 1, [], .onGoogleHome, 10⟩

/-- The in-memory state one invocation resolves to (if any). -/
def invState (k : String) (st : StoreContent) : Option WorkflowState :=
  (loadState k st).1

/-- The phase action of the resolved state can run on this document and will not
abort: the expected location is present (for `INITIATE_SEARCH`, either not yet
home, or home with both controls present). -/
def phaseOk (s : WorkflowState) (e : Env) : Bool :=
  match s.currentPhase with
  | .initiateSearch =>
    !(isGoogleHomeStrict e.loc) || (e.searchInputFound && e.searchButtonFound)
  | .onGoogleHome => isGoogleHomeLoose e.loc && e.searchInputFound && e.searchButtonFound
  | .scrapingResults => isResultsPage e.loc
  | .finished => true

/-- An invocation that resumes the stored workflow (same or omitted keyword)
and executes its expected phase action: no reset, no recovery and no
missing-control abort happens on it. -/
def conformsCall (st : StoreContent) (c : String × Env) : Bool :=
  match invState c.1 st with
  | none => false
  | some s =>
    (match st with
     | .stored p => c.1 == "" || c.1 == p.keyword
     | .absent => true
     | .corrupt => true) && phaseOk s c.2

/-- Every invocation of the run conforms (`conformsCall`), step by step. -/
def allConforming : StoreContent → List (String × Env) → Bool
  | _, [] => true
  | st, c :: rest => conformsCall st c && allConforming (stepStore st c) rest

/-- The invocation executes the `SCRAPING_RESULTS` phase action. -/
def scrapes (st : StoreContent) (c : String × Env) : Bool :=
  match invState c.1 st with
  | some s => s.currentPhase == Phase.scrapingResults && isResultsPage c.2.loc
  | none => false

/-- The invocation reaches (or already has) phase `FINISHED`. -/
def finishes (st : StoreContent) (c : String × Env) : Bool :=
  match invState c.1 st with
  | some s =>
    s.currentPhase == Phase.finished ||
      (s.currentPhase == Phase.scrapingResults && isResultsPage c.2.loc &&
        (decide (s.maxPages ≤ s.currentPageNum) || !(nextFound c.2)))
  | none => false

/-- Number of `SCRAPING_RESULTS` phase executions performed up to and
including the invocation on which the workflow reaches `FINISHED`. -/
def scrapeCountToFinish : StoreContent → List (String × Env) → Nat
  | _, [] => 0
  | st, c :: rest =>
    (if scrapes st c then 1 else 0) +
      (if finishes st c then 0 else scrapeCountToFinish (stepStore st c) rest)

/-- A fresh workflow with `maxPages = 2`, about to be hit by a recovery. -/
def c3cexState : WorkflowState := ⟨"kw", 1, [], .initiateSearch, 2⟩

/-- A run in which a phase mismatch occurs after the first page was scraped:
home, page 1, mismatch (recovery reset), home again, page 1, page 2. -/
def c3cexCalls : List (String × Env) :=
  [("kw", envHome), ("", envResultsNext), ("", envElsewhere), ("", envHome),
    ("", envResultsNext), ("", envResultsNext)]

/-- A fresh workflow with `maxPages = 1` for the bounded-count witness. -/
def c3witState : WorkflowState := ⟨"kw", 1, [], .initiateSearch, 1⟩

/-- Its two conforming invocations: home, then the only results page. -/
def c3witCalls : List (String × Env) := [("kw", envHome), ("", envResultsNoNext)]

/-! Theorems. -/

theorem extract_foldl_eq (cs : List Candidate) (acc : List ResultRecord) :
    cs.foldl (fun acc c =>
      match processResultElement c with
      | .ok (some r) => acc ++ [r]
      | _ => acc) acc = acc ++ cs.filterMap recordOf := by
  induction cs generalizing acc with
  | nil => simp
  | cons c cs ih =>
    simp only [List.foldl_cons, List.filterMap_cons]
    cases h : processResultElement c with
    | error e => simp [recordOf, h, ih]
    | ok o =>
      cases o with
      | none => simp [recordOf, h, ih]
      | some r => simp [recordOf, h, ih]

/-- C10: `extractCurrentPageGoogleResults` is the per-candidate `filterMap` of
the candidates of the page — it always returns a (possibly empty) list, and a
candidate on which the DOM raises contributes nothing while the record of every other
candidate is unchanged. -/
theorem c10_extraction_total_and_per_candidate_isolated :
    (∀ cs, extractCurrentPageGoogleResults cs = cs.filterMap recordOf) ∧
    (∀ xs (c : Candidate) ys, processResultElement c = .error () →
      extractCurrentPageGoogleResults (xs ++ c :: ys) =
        extractCurrentPageGoogleResults (xs ++ ys)) := by
  constructor
  · intro cs
    unfold extractCurrentPageGoogleResults
    simpa using extract_foldl_eq cs []
  · intro xs c ys h
    unfold extractCurrentPageGoogleResults
    rw [extract_foldl_eq (xs ++ c :: ys) [], extract_foldl_eq (xs ++ ys) []]
    have hc : recordOf c = none := by simp [recordOf, h]
    simp [List.filterMap_append, hc]

/-- Witness for C10 at a concrete raising candidate between two resolving
candidates. -/
theorem c10_witness :
    extractCurrentPageGoogleResults [candLenOk, candRaising, candQFirst] =
      extractCurrentPageGoogleResults [candLenOk, candQFirst] :=
  c10_extraction_total_and_per_candidate_isolated.2 [candLenOk] candRaising [candQFirst]
    rfl

theorem mergeResults_cons (acc : List ResultRecord) (n : ResultRecord)
    (new : List ResultRecord) :
    mergeResults acc (n :: new) =
      mergeResults
        (if acc.any (fun ex => ex.url == n.url && ex.title == n.title) then acc
         else acc ++ [n]) new := rfl

theorem merge_length_le (new : List ResultRecord) :
    ∀ acc, acc.length ≤ (mergeResults acc new).length := by
  induction new with
  | nil => intro acc; simp [mergeResults]
  | cons n new ih =>
    intro acc
    rw [mergeResults_cons]
    by_cases h : acc.any (fun ex => ex.url == n.url && ex.title == n.title) = true
    · rw [if_pos h]; exact ih acc
    · rw [if_neg h]
      calc acc.length ≤ (acc ++ [n]).length := by simp
        _ ≤ _ := ih (acc ++ [n])

theorem pairCount_append (t u : String) (l1 l2 : List ResultRecord) :
    pairCount t u (l1 ++ l2) = pairCount t u l1 + pairCount t u l2 := by
  simp [pairCount, List.filter_append]

theorem pairCount_pos (t u : String) (l : List ResultRecord)
    (h : 1 ≤ pairCount t u l) : ∃ r ∈ l, r.title = t ∧ r.url = u := by
  unfold pairCount at h
  have hne : l.filter (fun r => r.title == t && r.url == u) ≠ [] := by
    intro he; rw [he] at h; simp at h
  obtain ⟨r, hr⟩ := List.exists_mem_of_ne_nil _ hne
  rw [List.mem_filter] at hr
  refine ⟨r, hr.1, ?_⟩
  have := hr.2
  simp only [Bool.and_eq_true, beq_iff_eq] at this
  exact this

theorem merge_pairCount (new : List ResultRecord) :
    ∀ acc t u, 1 ≤ pairCount t u acc →
      pairCount t u (mergeResults acc new) = pairCount t u acc := by
  induction new with
  | nil => intro acc t u _; simp [mergeResults]
  | cons n new ih =>
    intro acc t u h
    rw [mergeResults_cons]
    by_cases hc : acc.any (fun ex => ex.url == n.url && ex.title == n.title) = true
    · rw [if_pos hc]; exact ih acc t u h
    · rw [if_neg hc]
      have hstep : pairCount t u (acc ++ [n]) = pairCount t u acc := by
        rw [pairCount_append]
        have hn : (pairCount t u [n]) = 0 := by
          obtain ⟨r, hrmem, hrt, hru⟩ := pairCount_pos t u acc h
          unfold pairCount
          simp only [List.filter, List.length_nil]
          by_cases hm : (n.title == t && n.url == u) = true
          · exfalso
            simp only [Bool.and_eq_true, beq_iff_eq] at hm
            apply hc
            rw [List.any_eq_true]
            exact ⟨r, hrmem, by simp [hru, hrt, hm.1, hm.2]⟩
          · simp [List.filter_cons, hm]
        omega
      rw [← hstep] at h ⊢
      exact ih (acc ++ [n]) t u h

/-- C4: merging the records of a page into `allResults` never shrinks it, and a
`(title, url)` pair already present never gains a second entry. -/
theorem c4_merge_monotone_no_duplicate :
    ∀ acc new : List ResultRecord,
      acc.length ≤ (mergeResults acc new).length ∧
      ∀ t u, 1 ≤ pairCount t u acc →
        pairCount t u (mergeResults acc new) = pairCount t u acc :=
  fun acc new =>
    ⟨merge_length_le new acc, fun t u h => merge_pairCount new acc t u h⟩

/-- Witness for C4: merging a page that re-contains `recA` into `[recA]`. -/
theorem c4_witness :
    [recA].length ≤ (mergeResults [recA] [recA, recB]).length ∧
    pairCount "title one" "https://a.example/" (mergeResults [recA] [recA, recB]) =
      pairCount "title one" "https://a.example/" [recA] :=
  ⟨(c4_merge_monotone_no_duplicate [recA] [recA, recB]).1,
    (c4_merge_monotone_no_duplicate [recA] [recA, recB]).2 "title one"
      "https://a.example/" (by decide)⟩

/-- C9 (counterexample): an anchor text of exactly 5 characters lies within
the inclusive 5–150 range, yet the fallback leaves the title at `N/A` (the
source requires `length > 5 && length < 150`). -/
theorem c9_counterexample_length_five_rejected :
    candLenFive.generalLink = some ⟨some "https://example.com/a", "abcde"⟩ ∧
    (firstLine (jsTrim "abcde")).length = 5 ∧
    (5 ≤ 5 ∧ 5 ≤ 150) ∧
    (resolveTitleUrlRaw candLenFive).1 = "N/A" ∧
    ("N/A" : String) ≠ firstLine (jsTrim "abcde") := by
  refine ⟨rfl, by decide, by decide, by decide, by decide⟩

/-- C9 (amended): in the general-anchor fallback (no title link, no `h3`, no
video variant), the first text line of the anchor becomes the title exactly when
its length is strictly between 5 and 150; otherwise the title stays `N/A`. -/
theorem c9_amended_fallback_title_acceptance :
    ∀ (c : Candidate) (a : Anchor), c.titleLink = none → c.h3 = none →
      c.isVideo = false → c.generalLink = some a →
      (resolveTitleUrlRaw c).1 =
        (if 5 < (firstLine (jsTrim a.text)).length ∧
            (firstLine (jsTrim a.text)).length < 150
         then firstLine (jsTrim a.text) else "N/A") := by
  intro c a h1 h2 h3 h4
  by_cases hlt : 5 < (firstLine (jsTrim a.text)).length ∧
      (firstLine (jsTrim a.text)).length < 150
  · rw [if_pos hlt]
    have hne : firstLine (jsTrim a.text) ≠ "" := by
      intro he
      rw [he] at hlt
      simp at hlt
    unfold resolveTitleUrlRaw
    rw [h1, h2, h3, h4]
    simp [hne, hlt.1, hlt.2]
  · rw [if_neg hlt]
    unfold resolveTitleUrlRaw
    rw [h1, h2, h3, h4]
    by_cases h5 : 5 < (firstLine (jsTrim a.text)).length
    · have h150 : ¬(firstLine (jsTrim a.text)).length < 150 := fun hh => hlt ⟨h5, hh⟩
      simp [h150]
    · simp [h5]

/-- Witness for C9 (amended) at a 17-character anchor text. -/
theorem c9_amended_witness :
    (resolveTitleUrlRaw candLenOk).1 =
      (if 5 < (firstLine (jsTrim "A plausible title")).length ∧
          (firstLine (jsTrim "A plausible title")).length < 150
       then firstLine (jsTrim "A plausible title") else "N/A") :=
  c9_amended_fallback_title_acceptance candLenOk
    ⟨some "https://example.com/b", "A plausible title"⟩ rfl rfl rfl rfl

/-- C7 (counterexample): for a redirect-wrapper url that carries the true
destination in its `q` query parameter but where `q` is not the first
parameter, the literal `/url?q=` test fails and the record keeps the wrapper
url instead of the destination. -/
theorem c7_counterexample_wrapper_not_unwrapped :
    urlSearchParamsGet "https://www.google.com/url?sa=t&q=https://example.com/target" "q" =
      some "https://example.com/target" ∧
    (recordOf candQNotFirst).map ResultRecord.url =
      some "https://www.google.com/url?sa=t&q=https://example.com/target" ∧
    ("https://www.google.com/url?sa=t&q=https://example.com/target" : String) ≠
      "https://example.com/target" := by
  refine ⟨by decide, ?_, by decide⟩
  decide

/-- C7 (amended): whenever the strategy-resolved url contains the literal text
`/url?q=` and its parsed query has a `q` parameter, the url of the accepted record
is exactly that (first) `q` value. -/
theorem c7_amended_unwrap_first_q_param :
    ∀ (c : Candidate) (u d : String) (r : ResultRecord),
      (resolveTitleUrlRaw c).2 = some u →
      strContains u "/url?q=" = true →
      urlSearchParamsGet u "q" = some d →
      processResultElement c = .ok (some r) →
      r.url = d := by
  intro c u d r hu hc hq hr
  have hune : (u != "") = true := by
    simp only [bne_iff_ne, ne_eq]
    intro he
    rw [he] at hc
    exact absurd hc (by decide)
  unfold processResultElement at hr
  by_cases he : c.hostError = true
  · rw [if_pos he] at hr; exact absurd hr (by simp)
  · rw [if_neg he] at hr
    have hfields : extractFields c = some r := by
      injection hr
    have hcanon : canonicalizeUrl (some u) = some d := by
      unfold canonicalizeUrl
      simp only [jsTruthy, jsString, hune, hc, Bool.and_self, if_pos]
      rw [hq]
    unfold extractFields at hfields
    rw [hu, hcanon] at hfields
    split at hfields
    · injection hfields with hrec
      rw [← hrec]
      rfl
    · exact absurd hfields (by simp)

/-- Witness for C7 (amended) at a wrapper with `q` first. -/
theorem c7_amended_witness : candQFirstRecord.url = "https://example.com/target" :=
  c7_amended_unwrap_first_q_param candQFirst
    "https://www.google.com/url?q=https://example.com/target&sa=t"
    "https://example.com/target" candQFirstRecord (by decide) (by decide) (by decide)
    rfl

/-- C5 (counterexample): on a results page whose next-page control is absent,
the phase action does not abort — it advances `currentPhase` to `FINISHED`
(and then clears the store), contradicting the claim that a missing next-page
control leaves `currentPhase` unchanged. -/
theorem c5_counterexample_missing_next_advances_phase :
    nextFound envResultsNoNext = false ∧
    isResultsPage envResultsNoNext.loc = true ∧
    scrapingState1.currentPhase = .scrapingResults ∧
    dispatchPhase scrapingState1 envResultsNoNext =
      [.write { scrapingState1 with currentPhase := .finished }, .clear] ∧
    ({ scrapingState1 with currentPhase := .finished }).currentPhase ≠
      Phase.scrapingResults := by
  refine ⟨rfl, by decide, rfl, by decide, by decide⟩

/-- C5 (amended): a missing query input or submit control on the home page
makes the phase action abort with no state write and no navigation (the store
is cleared); a missing next-page control on a results page is instead treated
as normal termination: the merged state is written with `currentPhase =
FINISHED` and the store is then cleared. -/
theorem c5_amended_missing_control_behaviour :
    ∀ (s : WorkflowState) (e : Env),
      (s.currentPhase = .onGoogleHome → isGoogleHomeLoose e.loc = true →
        (e.searchInputFound && e.searchButtonFound) = false →
        dispatchPhase s e = [.clear]) ∧
      (s.currentPhase = .scrapingResults → isResultsPage e.loc = true →
        nextFound e = false →
        dispatchPhase s e =
          [.write { s with allResults := mergeResults s.allResults e.pageData,
                           currentPhase := .finished }, .clear]) := by
  intro s e
  constructor
  · intro h1 h2 h3
    unfold dispatchPhase processGoogleHomePage
    rw [h1]
    simp [h2, h3]
  · intro h1 h2 h3
    unfold dispatchPhase processSearchResultsPage
    rw [h1]
    simp only [h2, h3]
    simp

/-- Witness for C5 (amended): missing home controls, and a results page with
no next-page control. -/
theorem c5_amended_witness :
    dispatchPhase homeState envHomeNoControls = [.clear] ∧
    dispatchPhase scrapingState1 envResultsNoNext =
      [.write { scrapingState1 with
                  allResults := mergeResults scrapingState1.allResults
                    envResultsNoNext.pageData,
                  currentPhase := .finished }, .clear] :=
  ⟨(c5_amended_missing_control_behaviour homeState envHomeNoControls).1 rfl
      (by decide) rfl,
    (c5_amended_missing_control_behaviour scrapingState1 envResultsNoNext).2 rfl
      (by decide) rfl⟩

/-- C6: when the document location of the invocation matches no expectation of the
current phase, the controller performs the recovery of source lines 211-224 —
with a keyword it checkpoints a full reset (phase `INITIATE_SEARCH`, page 1,
empty results, keyword preserved) and navigates to the Google home page;
without a keyword it clears the store and stops. -/
theorem c6_phase_mismatch_recovery :
    ∀ (s : WorkflowState) (e : Env),
      s.currentPhase ≠ .initiateSearch →
      ¬(s.currentPhase = .onGoogleHome ∧ isGoogleHomeLoose e.loc = true) →
      ¬(s.currentPhase = .scrapingResults ∧ isResultsPage e.loc = true) →
      s.currentPhase ≠ .finished →
      (s.keyword ≠ "" →
        dispatchPhase s e =
          [.write { s with currentPhase := .initiateSearch, currentPageNum := 1,
                           allResults := [] },
            .navLoc "https://www.google.com/"]) ∧
      (s.keyword = "" → dispatchPhase s e = [.clear]) := by
  intro s e h1 h2 h3 h4
  have b1 : (s.currentPhase == Phase.initiateSearch) = false := by
    simp [h1]
  have b2 : (s.currentPhase == Phase.onGoogleHome && isGoogleHomeLoose e.loc) = false := by
    rw [Bool.and_eq_false_iff]
    by_cases hp : s.currentPhase = .onGoogleHome
    · right; exact Bool.eq_false_iff.mpr fun hh => h2 ⟨hp, hh⟩
    · left; simp [hp]
  have b3 : (s.currentPhase == Phase.scrapingResults && isResultsPage e.loc) = false := by
    rw [Bool.and_eq_false_iff]
    by_cases hp : s.currentPhase = .scrapingResults
    · right; exact Bool.eq_false_iff.mpr fun hh => h3 ⟨hp, hh⟩
    · left; simp [hp]
  have b4 : (s.currentPhase == Phase.finished) = false := by
    simp [h4]
  constructor
  · intro hk
    unfold dispatchPhase
    simp [b1, b2, b3, b4, hk]
  · intro hk
    unfold dispatchPhase
    simp [b1, b2, b3, b4, hk]

/-- Witness for C6: a `SCRAPING_RESULTS` state invoked on an unrelated page
(keyword present), and a keyword-less state in the same situation. -/
theorem c6_witness :
    dispatchPhase scrapingState1 envElsewhere =
      [.write ⟨"kw", 1, [], .initiateSearch, 10⟩, .navLoc "https://www.google.com/"] ∧
    dispatchPhase ⟨"", 1, [], .scrapingResults, 10⟩ envElsewhere = [.clear] :=
  ⟨(c6_phase_mismatch_recovery scrapingState1 envElsewhere (by decide)
      (by decide) (by decide) (by decide)).1 (by decide),
    (c6_phase_mismatch_recovery ⟨"", 1, [], .scrapingResults, 10⟩ envElsewhere
      (by decide) (by decide) (by decide) (by decide)).2 rfl⟩

/-- C8: with no keyword available — none supplied and none recoverable from
the store (absent, corrupt, or holding an empty keyword) — the invocation
performs no navigation and writes no state (at most it clears a stored
empty-keyword state). -/
theorem c8_missing_keyword_aborts :
    ∀ (k : String) (st : StoreContent) (e : Env), k = "" →
      (st = .absent ∨ st = .corrupt ∨ ∃ s, st = .stored s ∧ s.keyword = "") →
      navCount (startFullGoogleSearchAutomation k st e) = 0 ∧
      (∀ s', Action.write s' ∉ startFullGoogleSearchAutomation k st e) := by
  intro k st e hk hst
  subst hk
  have htr : startFullGoogleSearchAutomation "" st e = [] ∨
      startFullGoogleSearchAutomation "" st e = [.clear] := by
    rcases hst with h | h | ⟨s, h, hkw⟩ <;> subst h
    · left; rfl
    · left; rfl
    · right
      unfold startFullGoogleSearchAutomation loadState resolveStored
      simp [hkw, initialState]
  rcases htr with h | h <;> rw [h]
  · exact ⟨rfl, by simp⟩
  · exact ⟨rfl, by simp⟩

/-- Witness for C8 at an absent store. -/
theorem c8_witness :
    navCount (startFullGoogleSearchAutomation "" .absent envHome) = 0 ∧
    (∀ s', Action.write s' ∉ startFullGoogleSearchAutomation "" .absent envHome) :=
  c8_missing_keyword_aborts "" .absent envHome rfl (Or.inl rfl)

theorem dispatch_nav_ok (s : WorkflowState) (e : Env) :
    navCount (dispatchPhase s e) ≤ 1 ∧
    navsAfterWrite false (dispatchPhase s e) = true := by
  unfold dispatchPhase processGoogleHomePage processSearchResultsPage
  refine ⟨?_, ?_⟩ <;> split_ifs <;>
    simp [navCount, isNav, navsAfterWrite, List.filter]

theorem loadState_shape (k : String) (st : StoreContent) :
    ((loadState k st).1 = none ∧
      ((loadState k st).2 = [] ∨ (loadState k st).2 = [.clear])) ∨
    ((loadState k st).1 ≠ none ∧ (loadState k st).2 = []) := by
  cases st with
  | absent =>
    simp only [loadState]
    split
    · exact Or.inl ⟨rfl, Or.inl rfl⟩
    · exact Or.inr ⟨by simp, rfl⟩
  | corrupt =>
    simp only [loadState]
    split
    · exact Or.inl ⟨rfl, Or.inl rfl⟩
    · exact Or.inr ⟨by simp, rfl⟩
  | stored parsed =>
    simp only [loadState]
    split
    · exact Or.inl ⟨rfl, Or.inr rfl⟩
    · exact Or.inr ⟨by simp, rfl⟩

/-- C1: every controller invocation attempts at most one navigation action
(location assignment or navigating click), and any navigation it attempts is
preceded, within the same invocation, by a write of the workflow state to the
store. -/
theorem c1_at_most_one_navigation_after_checkpoint :
    ∀ (k : String) (st : StoreContent) (e : Env),
      navCount (startFullGoogleSearchAutomation k st e) ≤ 1 ∧
      navsAfterWrite false (startFullGoogleSearchAutomation k st e) = true := by
  intro k st e
  unfold startFullGoogleSearchAutomation
  rcases loadState_shape k st with ⟨h1, h2 | h2⟩ | ⟨h1, h2⟩
  · rcases hl : loadState k st with ⟨os, acts⟩
    rw [hl] at h1 h2
    simp only at h1 h2
    subst h1; subst h2
    exact ⟨by simp [navCount], rfl⟩
  · rcases hl : loadState k st with ⟨os, acts⟩
    rw [hl] at h1 h2
    simp only at h1 h2
    subst h1; subst h2
    exact ⟨by simp [navCount, isNav], rfl⟩
  · rcases hl : loadState k st with ⟨os, acts⟩
    rw [hl] at h1 h2
    simp only at h1 h2
    subst h2
    cases os with
    | none => exact absurd rfl h1
    | some s =>
      simpa using dispatch_nav_ok s e

theorem merge_pairwise (new : List ResultRecord) :
    ∀ acc, PairUnique acc → PairUnique (mergeResults acc new) := by
  induction new with
  | nil => intro acc h; exact h
  | cons n new ih =>
    intro acc h
    rw [mergeResults_cons]
    by_cases hc : (acc.any fun ex => ex.url == n.url && ex.title == n.title) = true
    · rw [if_pos hc]; exact ih acc h
    · rw [if_neg hc]
      apply ih
      unfold PairUnique at h ⊢
      rw [List.pairwise_append]
      refine ⟨h, List.pairwise_singleton _ _, ?_⟩
      intro a ha b hb
      simp only [List.mem_singleton] at hb
      subst hb
      intro hab
      apply hc
      rw [List.any_eq_true]
      exact ⟨a, ha, by simp [hab.1, hab.2]⟩

theorem dispatch_writes (s : WorkflowState) (e : Env) (s' : WorkflowState)
    (h : Action.write s' ∈ dispatchPhase s e) :
    s'.allResults = s.allResults ∨ s'.allResults = [] ∨
    s'.allResults = mergeResults s.allResults e.pageData := by
  unfold dispatchPhase processGoogleHomePage processSearchResultsPage at h
  split_ifs at h <;> simp at h <;>
    first
      | (rcases h with h | h <;> subst h <;> simp)
      | (subst h; simp)

/-- The store invariant: a stored state has pairwise `(title, url)`-unique
results. -/
def StoreInv : StoreContent → Prop
  | .stored s => PairUnique s.allResults
  | _ => True

theorem applyActions_cons (st : StoreContent) (a : Action) (l : List Action) :
    applyActions st (a :: l) = applyActions (applyAction st a) l := rfl

theorem applyActions_inv (l : List Action) :
    ∀ st, StoreInv st → (∀ s', Action.write s' ∈ l → PairUnique s'.allResults) →
      StoreInv (applyActions st l) := by
  induction l with
  | nil => intro st h _; exact h
  | cons a l ih =>
    intro st h hw
    rw [applyActions_cons]
    cases a with
    | write s' =>
      exact ih (.stored s') (hw s' (List.mem_cons_self _ _))
        (fun s'' hm => hw s'' (List.mem_cons_of_mem _ hm))
    | clear =>
      exact ih .absent trivial (fun s'' hm => hw s'' (List.mem_cons_of_mem _ hm))
    | navLoc u =>
      exact ih st h (fun s'' hm => hw s'' (List.mem_cons_of_mem _ hm))
    | navClick =>
      exact ih st h (fun s'' hm => hw s'' (List.mem_cons_of_mem _ hm))

theorem loadState_results (k : String) (st : StoreContent) (s : WorkflowState)
    (h : (loadState k st).1 = some s) :
    s.allResults = [] ∨ ∃ p, st = .stored p ∧ s = p := by
  cases st with
  | absent =>
    simp only [loadState] at h
    split at h <;> simp at h
    left; rw [← h]; rfl
  | corrupt =>
    simp only [loadState] at h
    split at h <;> simp at h
    left; rw [← h]; rfl
  | stored parsed =>
    simp only [loadState] at h
    split at h <;> simp at h
    unfold resolveStored at h
    split_ifs at h
    · exact Or.inr ⟨parsed, rfl, h.symm⟩
    · left; rw [← h]; rfl
    · exact Or.inr ⟨parsed, rfl, h.symm⟩
    · left; rw [← h]; rfl

theorem loadState_some_snd (k : String) (st : StoreContent) (s : WorkflowState)
    (h : (loadState k st).1 = some s) : (loadState k st).2 = [] := by
  rcases loadState_shape k st with ⟨h1, _⟩ | ⟨_, h2⟩
  · rw [h] at h1; exact absurd h1 (by simp)
  · exact h2

theorem stepStore_inv (st : StoreContent) (c : String × Env) (h : StoreInv st) :
    StoreInv (stepStore st c) := by
  unfold stepStore startFullGoogleSearchAutomation
  rcases hl : loadState c.1 st with ⟨os, acts⟩
  cases os with
  | none =>
    have hsh := loadState_shape c.1 st
    rw [hl] at hsh
    simp only at hsh
    rcases hsh with ⟨_, hA | hA⟩ | ⟨hne, _⟩
    · subst hA; exact h
    · subst hA; trivial
    · exact absurd rfl hne
  | some s =>
    have hsnd := loadState_some_snd c.1 st s (by rw [hl])
    rw [hl] at hsnd
    simp only at hsnd
    subst hsnd
    have hsu : PairUnique s.allResults := by
      rcases loadState_results c.1 st s (by rw [hl]) with hres | ⟨p, hp, hsp⟩
      · rw [hres]; exact List.Pairwise.nil
      · subst hp; subst hsp; exact h
    show StoreInv (applyActions st ([] ++ dispatchPhase s c.2))
    rw [List.nil_append]
    apply applyActions_inv _ st h
    intro s' hw
    rcases dispatch_writes s c.2 s' hw with he | he | he
    · rw [he]; exact hsu
    · rw [he]; exact List.Pairwise.nil
    · rw [he]; exact merge_pairwise _ _ hsu

theorem runStore_inv (calls : List (String × Env)) :
    ∀ st, StoreInv st → StoreInv (runStore st calls) := by
  induction calls with
  | nil => intro st h; exact h
  | cons c calls ih => intro st h; exact ih _ (stepStore_inv st c h)

/-- C2: in every store state reachable from a fresh start by any sequence of
controller invocations, no two records of `allResults` share their
`(title, url)` pair. -/
theorem c2_reachable_allResults_pair_unique :
    ∀ (calls : List (String × Env)) (s : WorkflowState),
      runStore .absent calls = .stored s → PairUnique s.allResults := by
  intro calls s h
  have hinv := runStore_inv calls .absent trivial
  rw [h] at hinv
  exact hinv

/-- Witness for C2: one fresh invocation away from home persists the
`ON_GOOGLE_HOME` checkpoint, whose results are pair-unique. -/
theorem c2_witness :
    PairUnique ((⟨"kw", 1, [], .onGoogleHome, 10⟩ : WorkflowState).allResults) :=
  c2_reachable_allResults_pair_unique [("kw", envElsewhere)]
    ⟨"kw", 1, [], .onGoogleHome, 10⟩ (by decide)

/-- C3 (counterexample): starting a fresh workflow with `maxPages = 2`, a run
containing one phase-mismatch recovery performs 3 `SCRAPING_RESULTS`
executions before `FINISHED` — more than `maxPages`. -/
theorem c3_counterexample_recovery_exceeds_maxPages :
    c3cexState.currentPageNum = 1 ∧ c3cexState.currentPhase = .initiateSearch ∧
    1 ≤ c3cexState.maxPages ∧
    scrapeCountToFinish (.stored c3cexState) c3cexCalls = 3 ∧
    ¬(scrapeCountToFinish (.stored c3cexState) c3cexCalls ≤ c3cexState.maxPages) := by
  refine ⟨rfl, rfl, by decide, by decide, by decide⟩

theorem resolveStored_self (k : String) (p : WorkflowState)
    (hk : k = "" ∨ k = p.keyword) (hp : p.keyword ≠ "") :
    resolveStored k p = p := by
  unfold resolveStored
  rcases hk with hk | hk
  · subst hk
    simp [hp]
  · subst hk
    simp [hp]

theorem loadState_stored_eq (k : String) (p : WorkflowState)
    (hk : k = "" ∨ k = p.keyword) (hp : p.keyword ≠ "") :
    loadState k (.stored p) = (some p, []) := by
  simp only [loadState, resolveStored_self k p hk hp]
  simp [hp]

theorem conform_resolve (p : WorkflowState) (c : String × Env)
    (h : conformsCall (.stored p) c = true) :
    p.keyword ≠ "" ∧ (c.1 = "" ∨ c.1 = p.keyword) ∧
    loadState c.1 (.stored p) = (some p, []) ∧ phaseOk p c.2 = true := by
  unfold conformsCall invState at h
  cases hl : (loadState c.1 (.stored p)).1 with
  | none => rw [hl] at h; exact absurd h (by simp)
  | some s =>
    rw [hl] at h
    simp only [Bool.and_eq_true, Bool.or_eq_true, beq_iff_eq] at h
    obtain ⟨hk, hpo⟩ := h
    have hp : p.keyword ≠ "" := by
      intro hpe
      have hk0 : c.1 = "" := by
        rcases hk with h0 | h0
        · exact h0
        · rw [h0, hpe]
      rw [hk0] at hl
      have hload0 : loadState "" (.stored p) = (none, [.clear]) := by
        simp [loadState, resolveStored, hpe, initialState]
      rw [hload0] at hl
      exact absurd hl (by simp)
    have hload := loadState_stored_eq c.1 p hk hp
    have hs : s = p := by
      rw [hload] at hl
      simp only at hl
      injection hl with hl
      exact hl.symm
    subst hs
    exact ⟨hp, hk, hload, hpo⟩

theorem stepStore_resolved (p : WorkflowState) (c : String × Env)
    (hload : loadState c.1 (.stored p) = (some p, [])) :
    stepStore (.stored p) c = applyActions (.stored p) (dispatchPhase p c.2) := by
  unfold stepStore startFullGoogleSearchAutomation
  rw [hload]
  rfl

theorem scrape_count_bound (calls : List (String × Env)) :
    ∀ p : WorkflowState, 1 ≤ p.currentPageNum → p.currentPageNum ≤ p.maxPages →
      allConforming (.stored p) calls = true →
      scrapeCountToFinish (.stored p) calls ≤ p.maxPages - p.currentPageNum + 1 := by
  induction calls with
  | nil => intro p _ _ _; simp [scrapeCountToFinish]
  | cons c calls ih =>
    intro p h1 h2 hconf
    have hcc : conformsCall (.stored p) c = true ∧
        allConforming (stepStore (.stored p) c) calls = true := by
      simpa [allConforming, Bool.and_eq_true] using hconf
    obtain ⟨hc1, hc2⟩ := hcc
    obtain ⟨hkw, hk, hload, hpo⟩ := conform_resolve p c hc1
    have hstep := stepStore_resolved p c hload
    have hinv : invState c.1 (.stored p) = some p := by
      rw [invState, hload]
    rw [scrapeCountToFinish]
    cases hph : p.currentPhase with
    | finished =>
      have hsc : scrapes (.stored p) c = false := by simp [scrapes, hinv, hph]
      have hfn : finishes (.stored p) c = true := by simp [finishes, hinv, hph]
      simp [hsc, hfn]
    | initiateSearch =>
      have hsc : scrapes (.stored p) c = false := by simp [scrapes, hinv, hph]
      have hfn : finishes (.stored p) c = false := by simp [finishes, hinv, hph]
      simp only [hsc, hfn, Bool.false_eq_true, if_false, Nat.zero_add]
      by_cases hs : isGoogleHomeStrict c.2.loc = true
      · have hctl : (c.2.searchInputFound && c.2.searchButtonFound) = true := by
          have := hpo
          unfold phaseOk at this
          rw [hph] at this
          simpa [hs] using this
        have hstep2 : stepStore (.stored p) c =
            .stored { p with currentPhase := .scrapingResults } := by
          rw [hstep]
          unfold dispatchPhase processGoogleHomePage
          simp [hph, hs, hctl, applyActions, applyAction]
        rw [hstep2] at hc2 ⊢
        exact ih { p with currentPhase := .scrapingResults } h1 h2 hc2
      · have hstep2 : stepStore (.stored p) c =
            .stored { p with currentPhase := .onGoogleHome } := by
          rw [hstep]
          unfold dispatchPhase
          simp [hph, hs, applyActions, applyAction]
        rw [hstep2] at hc2 ⊢
        exact ih { p with currentPhase := .onGoogleHome } h1 h2 hc2
    | onGoogleHome =>
      have hsc : scrapes (.stored p) c = false := by simp [scrapes, hinv, hph]
      have hfn : finishes (.stored p) c = false := by simp [finishes, hinv, hph]
      simp only [hsc, hfn, Bool.false_eq_true, if_false, Nat.zero_add]
      have hpo' : (isGoogleHomeLoose c.2.loc && c.2.searchInputFound &&
          c.2.searchButtonFound) = true := by
        have := hpo
        unfold phaseOk at this
        rw [hph] at this
        exact this
      simp only [Bool.and_eq_true] at hpo'
      have hstep2 : stepStore (.stored p) c =
          .stored { p with currentPhase := .scrapingResults } := by
        rw [hstep]
        unfold dispatchPhase processGoogleHomePage
        simp [hph, hpo'.1.1, hpo'.1.2, hpo'.2, applyActions, applyAction]
      rw [hstep2] at hc2 ⊢
      exact ih { p with currentPhase := .scrapingResults } h1 h2 hc2
    | scrapingResults =>
      have hres : isResultsPage c.2.loc = true := by
        have := hpo
        unfold phaseOk at this
        rw [hph] at this
        exact this
      have hsc : scrapes (.stored p) c = true := by simp [scrapes, hinv, hph, hres]
      by_cases hmax : p.maxPages ≤ p.currentPageNum
      · have hfn : finishes (.stored p) c = true := by
          simp [finishes, hinv, hph, hres, hmax]
        simp only [hsc, hfn, if_true, Nat.add_zero]
        omega
      · by_cases hnext : nextFound c.2 = true
        · have hfn : finishes (.stored p) c = false := by
            simp [finishes, hinv, hph, hres, hmax, hnext]
          have hstep2 : stepStore (.stored p) c =
              .stored { p with
                allResults := mergeResults p.allResults c.2.pageData,
                currentPageNum := p.currentPageNum + 1 } := by
            rw [hstep]
            unfold dispatchPhase processSearchResultsPage
            simp [hph, hres, hmax, hnext, applyActions, applyAction]
          rw [hstep2] at hc2
          have hih := ih { p with
              allResults := mergeResults p.allResults c.2.pageData,
              currentPageNum := p.currentPageNum + 1 }
            (by simp) (by simp; omega) hc2
          simp only at hih
          simp only [hsc, hfn, hstep2, Bool.false_eq_true, if_true, if_false]
          omega
        · have hfn : finishes (.stored p) c = true := by
            simp [finishes, hinv, hph, hres, hnext]
          simp only [hsc, hfn, if_true, Nat.add_zero]
          omega

/-- C3 (amended): within one conforming workflow — every invocation resumes
the stored state (same or omitted keyword) and executes its expected phase
action, so no recovery reset, no new-keyword reset and no missing-control
abort occurs — the number of `SCRAPING_RESULTS` phase executions up to and
including the transition to `FINISHED` is at most the `maxPages` of the workflow.
A phase-mismatch recovery resets `currentPageNum` to 1 and can push the total
beyond `maxPages` (see the counterexample). -/
theorem c3_amended_scrape_count_bounded :
    ∀ (s₀ : WorkflowState) (calls : List (String × Env)),
      s₀.currentPageNum = 1 → 1 ≤ s₀.maxPages →
      allConforming (.stored s₀) calls = true →
      scrapeCountToFinish (.stored s₀) calls ≤ s₀.maxPages := by
  intro s₀ calls h1 h2 hconf
  have hb := scrape_count_bound calls s₀ (by omega) (by omega) hconf
  omega

/-- Witness for C3 (amended): a two-invocation conforming workflow with
`maxPages = 1` scrapes exactly once. -/
theorem c3_amended_witness :
    scrapeCountToFinish (.stored c3witState) c3witCalls ≤ c3witState.maxPages :=
  c3_amended_scrape_count_bounded c3witState c3witCalls rfl (by decide) (by decide)

end AutoGen
